import Mathlib

/-!
Shallow embedding of the reapy-boost distant-API core, translated from the
repository sources:

* `reapy/config.py` — provisioning of the REAPER web interface in the
  persisted `.ini` file (`create_new_web_interface`, `delete_web_interface`,
  `enable_dist_api`, `disable_dist_api`);
* `reapy/tools/dist_program.py` — the dispatching `Program` subclass, its
  module-level network-client initialization, and `Program.from_function`;
* `reapy/core/project/project.py` — `Project.add_region` and
  `Project.play_state`.

The `.ini` section `config["reaper"]` is modelled by the counter key
`csurf_cnt` together with the family of `csurf_k` keys; since the Python key
strings `"csurf_" + str(k)` are in bijection with the integers `k`, the
family is represented as a partial map from `Int`.  A Python exception that
aborts a function before its final `config.write()` leaves the persisted
file untouched, which the embedding renders by returning `none` (for
`KeyError`) or by pairing an error token with the unchanged state.
-/

namespace Reapy

/-- The data stored in one `csurf_k` line.  The source writes the literal
string `HTTP 0 <port> <empty> index.html 0 <empty>` (with the two empty
fields and the file name quoted); the fields are modelled structurally so
the stored port is directly visible. -/
structure CsurfEntry where
  kind : String
  flag : Int
  port : Int
  param1 : String
  defaultFile : String
  flag2 : Int
  param2 : String
deriving DecidableEq, Repr

/-- The entry `create_new_web_interface` writes for a given port
(config.py line 43). -/
def webInterfaceEntry (port : Int) : CsurfEntry :=
  ⟨"HTTP", 0, port, "", "index.html", 0, ""⟩

/-- The `[reaper]` section of the REAPER `.ini` file, restricted to the keys
the provisioning code touches: the counter `csurf_cnt` and the indexed
`csurf_k` entries. -/
structure ReaperIni where
  csurf_cnt : Int
  csurf : Int → Option CsurfEntry

/-- `REAPY_SERVER_PORT = 2306` (config.py line 9). -/
def REAPY_SERVER_PORT : Int := 2306

/-- `WEB_INTERFACE_PORT = 2307` (config.py line 10). -/
def WEB_INTERFACE_PORT : Int := 2307

/-- `create_new_web_interface(port)` (config.py lines 26-44): read
`csurf_cnt` as `n`, store `n + 1` back, and write the new entry under key
`csurf_(n+1-1) = csurf_n`. -/
def create_new_web_interface (port : Int) (c : ReaperIni) : ReaperIni :=
  let csurf_count := c.csurf_cnt + 1
  { csurf_cnt := csurf_count
    csurf := fun k =>
      if k = csurf_count - 1 then some (webInterfaceEntry port) else c.csurf k }

/-- `delete_web_interface(port)` (config.py lines 47-65): read `csurf_cnt`
as `n`, set it to `n - 1` in memory, then `del` the key `csurf_(n-1)`.  The
`port` parameter is never read by the body.  If the key is absent, `del`
raises `KeyError` before `config.write()` runs, so the persisted file is
unchanged: that outcome is `none`. -/
def delete_web_interface (_port : Int) (c : ReaperIni) : Option ReaperIni :=
  let csurf_count := c.csurf_cnt - 1
  match c.csurf csurf_count with
  | none => none
  | some _ =>
      some { csurf_cnt := csurf_count
             csurf := fun k => if k = csurf_count then none else c.csurf k }

/-- Errors raised by the provisioning functions: `OutsideREAPERError` from
the role guard, Python `KeyError` from `del` on a missing key. -/
inductive ConfigError where
  | outsideREAPER
  | keyError
deriving DecidableEq, Repr

/-- Path token of the `activate_reapy_server` ReaScript
(`get_activate_reapy_server_path`, config.py lines 109-111). -/
def activate_reapy_server_path : String := "reapy/reascripts/activate_reapy_server.py"

/-- Host-side persisted state affected by `enable_dist_api` and
`disable_dist_api`: the `.ini` section, the list of installed ReaScripts
(Actions list), the persisted extended state, and the message boxes shown.
ReaScript installation itself (`reapy.add_reascript` / `remove_reascript`)
is not under the provisioning module; it is modelled from the spec as
appending to / erasing from the Actions list. -/
structure ReaperState where
  ini : ReaperIni
  scripts : List String
  extState : List ((String × String) × String)
  messages : List String

/-- `enable_dist_api()` (config.py lines 87-106): raise `OutsideREAPERError`
when the process is not inside REAPER, before touching anything; otherwise
create the web interface at `WEB_INTERFACE_PORT`, install the
`activate_reapy_server` ReaScript, persist its command name in extended
state, and show a message box.  The result pairs the raised error (if any)
with the persisted state after the call. -/
def enable_dist_api (inside : Bool) (s : ReaperState) :
    Option ConfigError × ReaperState :=
  if inside then
    (none,
      { ini := create_new_web_interface WEB_INTERFACE_PORT s.ini
        scripts := s.scripts ++ [activate_reapy_server_path]
        extState := s.extState ++ [(("reapy", "activate_reapy_server"),
          activate_reapy_server_path)]
        messages := s.messages ++ ["reapy successfully enabled"] })
  else
    (some ConfigError.outsideREAPER, s)

/-- `disable_dist_api()` (config.py lines 68-84): raise `OutsideREAPERError`
when the process is not inside REAPER, before touching anything; otherwise
delete the web interface (whose `KeyError`, if the entry is absent,
propagates with nothing persisted), remove the ReaScript, and show a
message box. -/
def disable_dist_api (inside : Bool) (s : ReaperState) :
    Option ConfigError × ReaperState :=
  if inside then
    match delete_web_interface WEB_INTERFACE_PORT s.ini with
    | none => (some ConfigError.keyError, s)
    | some ini2 =>
        (none,
          { ini := ini2
            scripts := s.scripts.erase activate_reapy_server_path
            extState := s.extState
            messages := s.messages ++ ["reapy will be disabled"] })
  else
    (some ConfigError.outsideREAPER, s)

/-! ## `reapy/tools/dist_program.py` -/

/-- Positional and keyword arguments of one invocation, with values drawn
from an arbitrary type `V` of serializable values. -/
structure CallArgs (V : Type) where
  args : List V
  kwargs : List (String × V)

/-- Modelled from the spec: the execution unit of §4.2 — the base class
`reapy.tools.program.Program` is not among the sources.  Its body is an
opaque executable description, modelled by its effect: given the bound
arguments it yields the final execution namespace, from which the declared
output names are read back in order. -/
structure ExecUnit (V : Type) where
  body : CallArgs V → List (String × V)
  outputs : List String

/-- Modelled from the spec: the Local Executor of §4.2.  Bind the arguments,
run the body, then read the values named in `outputs` in declared order;
a missing output is an `ExecutionError` naming it. -/
def localRun {V : Type} (u : ExecUnit V) (a : CallArgs V) :
    Except String (List V) :=
  let ns := u.body a
  u.outputs.foldr
    (fun name acc =>
      match ns.lookup name, acc with
      | some v, Except.ok vs => Except.ok (v :: vs)
      | none, _ => Except.error name
      | _, Except.error e => Except.error e)
    (Except.ok [])

/-- Modelled from the spec: `Client.run_program` of the Network Client
(§4.5, §8 context transparency) — `reapy.reascript_api.network.Client` is
not among the sources.  The client ships the unit to the host, whose server
runs it with the same Local Executor and returns the output sequence. -/
def clientRunProgram {V : Type} (u : ExecUnit V) (a : CallArgs V) :
    Except String (List V) :=
  localRun u a

/-- Names bound at module level in `reapy/tools/dist_program.py` by the
time `Program.run` executes: `reapy` (line 1), the four network bindings
when the process is outside REAPER (lines 3-7), `program` (line 9) and the
class `Program` itself (line 11).  No statement of the module binds the
name `DistProgram`. -/
def distProgramGlobals (inside : Bool) : List String :=
  if inside then
    ["reapy", "program", "Program"]
  else
    ["reapy", "Client", "WebInterface", "DEFAULT_WEB_INTERFACE_PORT",
     "WEB_INTERFACE", "CLIENT", "program", "Program"]

/-- Outcome of a `Program.run` call: a returned output sequence or
`ExecutionError` from the executor, or an unhandled Python `NameError` on
an unbound name. -/
inductive RunOutcome (V : Type) where
  | result (r : Except String (List V))
  | nameError (n : String)

/-- `Program.run` (dist_program.py lines 21-25): when inside REAPER,
evaluate `super(DistProgram, self).run(**input)` — which first resolves the
bare name `DistProgram` in the module's globals and raises `NameError` if
it is unbound, and only on success runs the inherited local executor;
when outside, delegate the unit and bindings to `CLIENT.run_program`. -/
def Program.run {V : Type} (inside : Bool) (u : ExecUnit V) (a : CallArgs V) :
    RunOutcome V :=
  if inside then
    if "DistProgram" ∈ distProgramGlobals true then
      RunOutcome.result (localRun u a)
    else
      RunOutcome.nameError "DistProgram"
  else
    RunOutcome.result (clientRunProgram u a)

/-- The unit built by `Program.from_function` (dist_program.py lines 14-16):
the code string `result = <function_name>(*args, **kwargs)` with the single
output `result`.  The named callable is resolved in an environment `fenv`
mapping function names to their behaviour on the supplied arguments. -/
def fromFunctionUnit {V : Type} (fenv : String → CallArgs V → V)
    (function_name : String) : ExecUnit V :=
  { body := fun a => [("result", fenv function_name a)]
    outputs := ["result"] }

/-- Outcome of calling the wrapper returned by `from_function`: the single
output value, or a propagated error. -/
inductive CallOutcome (V : Type) where
  | ok (v : V)
  | execError (n : String)
  | nameError (n : String)
deriving DecidableEq, Repr

/-- The wrapper `g` returned by `Program.from_function` (dist_program.py
lines 17-19): run the constructed unit through `Program.run` with the
supplied args and kwargs and take element `[0]` of the returned output
sequence. -/
def from_function {V : Type} (inside : Bool) (fenv : String → CallArgs V → V)
    (function_name : String) (a : CallArgs V) : CallOutcome V :=
  match Program.run inside (fromFunctionUnit fenv function_name) a with
  | RunOutcome.nameError n => CallOutcome.nameError n
  | RunOutcome.result (Except.error n) => CallOutcome.execError n
  | RunOutcome.result (Except.ok vs) =>
      match vs with
      | [] => CallOutcome.execError "result"
      | v :: _ => CallOutcome.ok v

/-- State of the module-level bindings of `reapy.tools.dist_program` right
after the module body runs (lines 1-11): whether a `WebInterface` query
object and a `Client` connection were created, and how many execution units
have been submitted through them so far (zero at import time).  `WebInterface`
and `Client` construction (not among the sources) is modelled from the spec:
the web interface wraps the fixed control port, and the client connects to
the dynamic server port it discovers. -/
structure DistProgramModule where
  webInterfacePort : Option Int
  clientPort : Option Int
  unitsSubmitted : Nat
deriving DecidableEq, Repr

/-- Module initialization of `reapy.tools.dist_program` (lines 3-7): when
the process is outside REAPER, `WEB_INTERFACE` and `CLIENT` are constructed
immediately at import time, the client on the server port discovered through
the web interface; inside REAPER the guarded block is skipped.  No execution
unit has been submitted yet in either case. -/
def distProgramInit (inside : Bool) (discoveredServerPort : Int) :
    DistProgramModule :=
  if inside then
    ⟨none, none, 0⟩
  else
    ⟨some WEB_INTERFACE_PORT, some discoveredServerPort, 0⟩

/-! ## `reapy/core/project/project.py` -/

/-- A Python runtime value as far as the two `Project` methods under study
inspect one: an integer, a string, an RGB tuple, or an opaque host value. -/
inductive PyValue where
  | int (i : Int)
  | str (s : String)
  | tuple (rgb : List Int)
  | hostRef (tag : String)
deriving DecidableEq, Repr

/-- Result of calling a `Project` method: a normal return, or an unhandled
Python `NameError` (unbound name) or `KeyError` (missing dictionary key). -/
inductive PyResult (α : Type) where
  | ok (a : α) : PyResult α
  | nameError (n : String) : PyResult α
  | keyError : PyResult α
deriving DecidableEq, Repr

/-- The host call `RPR.AddProjectMarker(proj, isrgn, pos, rgnend, name,
wantidx, color)` that `add_region` would issue, recorded as data: the host
API is outside the repository. -/
structure AddProjectMarkerCall where
  proj : PyValue
  isrgn : Bool
  pos : PyValue
  rgnend : PyValue
  markerName : PyValue
  wantidx : Int
  color : PyValue
deriving DecidableEq, Repr

/-- Names bound at module level in `reapy/core/project/project.py`:
the imports of lines 1-3, the class of line 5 and the imports of
lines 331-333.  No statement of the module binds the name `color`. -/
def projectModuleGlobals : List String :=
  ["reapy", "RPR", "Program", "Project", "Item", "Track", "TimeSelection"]

/-- Local names bound in the body of `Project.add_region` at its first
statement (project.py line 248): exactly the parameters of line 227. -/
def addRegionLocals : List String := ["self", "start", "end", "name"]

/-- Python name resolution for a bare name inside `add_region`: local scope,
then module globals (builtins bind neither `color` nor any other name the
method reads). -/
def addRegionLookup (self start stop name : PyValue) (n : String) :
    Option PyValue :=
  if n = "self" then some self
  else if n = "start" then some start
  else if n = "end" then some stop
  else if n = "name" then some name
  else none

/-- `Project.add_region(start, end, name="")` (project.py lines 227-253):
its first statement `if isinstance(color, tuple):` reads the bare name
`color`, which is neither a parameter nor assigned anywhere in the body, so
resolution falls through every scope; on failure the call raises
`NameError` before any host call.  Were `color` bound, a tuple value would
be converted through `reapy.rgb_to_native` (a function outside the sources,
abstracted as `rgbToNative`) and the region created via
`RPR.AddProjectMarker`. -/
def Project.add_region (rgbToNative : List Int → Int)
    (self start stop name : PyValue) : PyResult AddProjectMarkerCall :=
  match addRegionLookup self start stop name "color" with
  | none => PyResult.nameError "color"
  | some c =>
      let c2 := match c with
        | PyValue.tuple rgb => PyValue.int (rgbToNative rgb)
        | v => v
      PyResult.ok ⟨self, true, start, stop, name, -1, c2⟩

/-- The dictionary literal `{1: "play", 2: "pause", 4: "record"}` of
project.py line 117. -/
def playStates : List (Int × String) := [(1, "play"), (2, "pause"), (4, "record")]

/-- `Project.play_state` (project.py lines 107-119): index the `states`
dictionary with the native play state reported by the host
(`RPR.GetPlayStateEx`); a missing key raises `KeyError`. -/
def Project.play_state (nativeState : Int) : PyResult String :=
  match playStates.lookup nativeState with
  | some s => PyResult.ok s
  | none => PyResult.keyError

/-! ## Invariant of the provisioning section and concrete states -/

/-- Well-formedness of the `[reaper]` section: the counter is nonnegative
and the `csurf_k` entries occupy exactly the contiguous index range
`0 .. csurf_cnt - 1`. -/
def wellFormed (c : ReaperIni) : Prop :=
  0 ≤ c.csurf_cnt ∧
    ∀ k : Int, (c.csurf k).isSome = true ↔ (0 ≤ k ∧ k < c.csurf_cnt)

/-- One provisioning operation on the `.ini` section, with the port it is
invoked with. -/
inductive ProvisionOp where
  | createOp (port : Int)
  | deleteOp (port : Int)

/-- Run one provisioning operation.  A `deleteOp` whose `KeyError` aborts
the function leaves the persisted file unchanged. -/
def applyOp (c : ReaperIni) (op : ProvisionOp) : ReaperIni :=
  match op with
  | ProvisionOp.createOp p => create_new_web_interface p c
  | ProvisionOp.deleteOp p => (delete_web_interface p c).getD c

/-- The `[reaper]` section with no web interfaces registered. -/
def emptyIni : ReaperIni := ⟨0, fun _ => none⟩

/-- A `[reaper]` section with three control surfaces registered, at
indices 0, 1 and 2 (the scenario of the spec starts from counter 3). -/
def ini3 : ReaperIni :=
  ⟨3, fun k => if k = 0 ∨ k = 1 ∨ k = 2 then some (webInterfaceEntry 8080) else none⟩

/-- Host state built on `ini3`, before enabling the distant API. -/
def state3 : ReaperState := ⟨ini3, [], [], []⟩

/-- Host state after one `enable_dist_api` from `state3`: the distant API
is enabled (entry present at index 3, counter 4). -/
def enabledState : ReaperState := (enable_dist_api true state3).2

/-- Host state with an empty `[reaper]` section: the distant API is
disabled (no entry present). -/
def emptyState : ReaperState := ⟨emptyIni, [], [], []⟩

/-- The section obtained by deleting the last entry of `ini3`. -/
def deletedIni3 : ReaperIni := (delete_web_interface 9999 ini3).getD emptyIni

/-- The section after enabling the web interface from `ini3`. -/
def ini3Enabled : ReaperIni := create_new_web_interface WEB_INTERFACE_PORT ini3

/-- The section after enabling and then disabling the web interface from
`ini3`. -/
def ini3Roundtrip : ReaperIni :=
  (delete_web_interface WEB_INTERFACE_PORT ini3Enabled).getD emptyIni

/-! ## Theorems -/

lemma wellFormed_create (p : Int) (c : ReaperIni) (h : wellFormed c) :
    wellFormed (create_new_web_interface p c) := by
  obtain ⟨h0, hk⟩ := h
  refine ⟨by simp [create_new_web_interface]; omega, ?_⟩
  intro k
  by_cases hkn : k = c.csurf_cnt
  · simp [create_new_web_interface, hkn]
    omega
  · have hne : ¬ k = c.csurf_cnt + 1 - 1 := by omega
    simp only [create_new_web_interface, if_neg hne]
    rw [hk k]
    omega

lemma wellFormed_delete (p : Int) (c d : ReaperIni) (h : wellFormed c)
    (hd : delete_web_interface p c = some d) : wellFormed d := by
  obtain ⟨h0, hk⟩ := h
  cases he : c.csurf (c.csurf_cnt - 1) with
  | none => simp [delete_web_interface, he] at hd
  | some e =>
      have hd2 : d = ⟨c.csurf_cnt - 1,
          fun k => if k = c.csurf_cnt - 1 then none else c.csurf k⟩ := by
        simp [delete_web_interface, he] at hd
        exact hd.symm
      have hlast : 0 ≤ c.csurf_cnt - 1 ∧ c.csurf_cnt - 1 < c.csurf_cnt :=
        (hk (c.csurf_cnt - 1)).mp (by rw [he]; rfl)
      rw [hd2]
      constructor
      · dsimp only
        omega
      · intro k
        dsimp only
        by_cases hkn : k = c.csurf_cnt - 1
        · rw [if_pos hkn]
          simp only [Option.isSome_none, Bool.false_eq_true, false_iff]
          omega
        · rw [if_neg hkn, hk k]
          omega

lemma wellFormed_applyOp (op : ProvisionOp) (c : ReaperIni) (h : wellFormed c) :
    wellFormed (applyOp c op) := by
  cases op with
  | createOp p => simpa [applyOp] using wellFormed_create p c h
  | deleteOp p =>
      cases he : delete_web_interface p c with
      | none => simpa [applyOp, he] using h
      | some d => simpa [applyOp, he] using wellFormed_delete p c d h he

lemma wellFormed_foldl (ops : List ProvisionOp) (c : ReaperIni) (h : wellFormed c) :
    wellFormed (List.foldl applyOp c ops) := by
  induction ops generalizing c with
  | nil => exact h
  | cons op ops ih => exact ih (applyOp c op) (wellFormed_applyOp op c h)

lemma ncard_of_wellFormed (c : ReaperIni) (h : wellFormed c) :
    {k : Int | (c.csurf k).isSome = true}.ncard = c.csurf_cnt.toNat := by
  have hset : {k : Int | (c.csurf k).isSome = true}
      = ↑(Finset.Ico (0 : Int) c.csurf_cnt) := by
    ext k
    simp [Finset.mem_Ico, h.2 k]
  rw [hset, Set.ncard_coe_Finset, Int.card_Ico]
  simp

lemma wellFormed_emptyIni : wellFormed emptyIni := by
  refine ⟨le_refl 0, ?_⟩
  intro k
  constructor
  · intro hsome
    simp [emptyIni] at hsome
  · intro hk
    have hcnt : emptyIni.csurf_cnt = (0 : Int) := rfl
    rw [hcnt] at hk
    exact absurd hk (by omega)

/-- Claim C4: for every configuration in which the counter equals the
number of entries and the entries occupy the contiguous range
`0 .. counter - 1`, the invariant is preserved by every
`create_new_web_interface` and every `delete_web_interface` (a failing
delete persists nothing), and hence holds after any sequence of such
operations from a well-formed initial state. -/
theorem provisioning_invariant_preserved :
    (∀ (p : Int) (c : ReaperIni), wellFormed c →
        wellFormed (create_new_web_interface p c)) ∧
    (∀ (p : Int) (c d : ReaperIni), wellFormed c →
        delete_web_interface p c = some d → wellFormed d) ∧
    (∀ c : ReaperIni, wellFormed c →
        {k : Int | (c.csurf k).isSome = true}.ncard = c.csurf_cnt.toNat) ∧
    (∀ (ops : List ProvisionOp) (c : ReaperIni), wellFormed c →
        wellFormed (List.foldl applyOp c ops)) :=
  ⟨wellFormed_create, wellFormed_delete, ncard_of_wellFormed, wellFormed_foldl⟩

/-- Witness for C4: the empty section is well formed, and stays so after an
enable followed by a disable at the fixed port. -/
theorem provisioning_invariant_witness :
    wellFormed emptyIni ∧
    wellFormed (List.foldl applyOp emptyIni
      [ProvisionOp.createOp 2307, ProvisionOp.deleteOp 2307]) :=
  ⟨wellFormed_emptyIni,
    provisioning_invariant_preserved.2.2.2
      [ProvisionOp.createOp 2307, ProvisionOp.deleteOp 2307]
      emptyIni wellFormed_emptyIni⟩

/-- Claim C2: starting from a section whose counter is `n`,
`create_new_web_interface` writes the new entry at index `n` storing the
fixed control port and sets the counter to `n + 1`; `delete_web_interface`
removes the entry at index `counter - 1` and sets the counter to
`counter - 1`; in particular from counter 3, enabling appends at index 3
and the counter becomes 4, and a subsequent disable removes index 3 and
returns the section to its prior contents with counter 3. -/
theorem create_delete_web_interface_behaviour :
    (∀ (c : ReaperIni) (n : Int), c.csurf_cnt = n →
        (create_new_web_interface WEB_INTERFACE_PORT c).csurf_cnt = n + 1 ∧
        (create_new_web_interface WEB_INTERFACE_PORT c).csurf n
          = some (webInterfaceEntry WEB_INTERFACE_PORT) ∧
        (∀ k, k ≠ n →
          (create_new_web_interface WEB_INTERFACE_PORT c).csurf k = c.csurf k)) ∧
    (∀ (p : Int) (c d : ReaperIni), delete_web_interface p c = some d →
        d.csurf_cnt = c.csurf_cnt - 1 ∧
        d.csurf (c.csurf_cnt - 1) = none ∧
        (∀ k, k ≠ c.csurf_cnt - 1 → d.csurf k = c.csurf k)) ∧
    (ini3.csurf_cnt = 3 ∧
     ini3Enabled.csurf_cnt = 4 ∧
     ini3Enabled.csurf 3 = some (webInterfaceEntry WEB_INTERFACE_PORT) ∧
     delete_web_interface WEB_INTERFACE_PORT ini3Enabled = some ini3Roundtrip ∧
     ini3Roundtrip.csurf_cnt = 3 ∧
     ∀ k, ini3Roundtrip.csurf k = ini3.csurf k) := by
  refine ⟨?_, ?_, rfl, rfl, ?_, rfl, rfl, ?_⟩
  · intro c n hn
    subst hn
    refine ⟨rfl, ?_, ?_⟩
    · have h1 : c.csurf_cnt = c.csurf_cnt + 1 - 1 := by omega
      simp only [create_new_web_interface]
      rw [if_pos h1]
    · intro k hk
      have h2 : ¬ k = c.csurf_cnt + 1 - 1 := by omega
      simp only [create_new_web_interface]
      rw [if_neg h2]
  · intro p c d hd
    cases he : c.csurf (c.csurf_cnt - 1) with
    | none => simp [delete_web_interface, he] at hd
    | some e =>
        have hd2 : d = ⟨c.csurf_cnt - 1,
            fun k => if k = c.csurf_cnt - 1 then none else c.csurf k⟩ := by
          simp [delete_web_interface, he] at hd
          exact hd.symm
        rw [hd2]
        refine ⟨rfl, ?_, ?_⟩
        · dsimp only
          rw [if_pos rfl]
        · intro k hk
          dsimp only
          rw [if_neg hk]
  · rfl
  · intro k
    by_cases hk3 : k = (3 : Int)
    · subst hk3
      rfl
    · have hk2 : ¬ k = (3 : Int) + 1 - 1 := by omega
      show (if k = (4 : Int) - 1 then none else ini3Enabled.csurf k) = ini3.csurf k
      rw [if_neg (by omega : ¬ k = (4 : Int) - 1)]
      show (if k = (3 : Int) + 1 - 1 then some (webInterfaceEntry WEB_INTERFACE_PORT)
            else ini3.csurf k) = ini3.csurf k
      rw [if_neg hk2]

/-- Witness for C2: the concrete scenario state with counter 3 discharges
the hypotheses. -/
theorem create_delete_web_interface_witness :
    ini3.csurf_cnt = 3 ∧
    (create_new_web_interface WEB_INTERFACE_PORT ini3).csurf_cnt = 3 + 1 ∧
    delete_web_interface 9999 ini3 = some deletedIni3 ∧
    deletedIni3.csurf_cnt = ini3.csurf_cnt - 1 :=
  ⟨rfl, (create_delete_web_interface_behaviour.1 ini3 3 rfl).1, rfl,
    (create_delete_web_interface_behaviour.2.1 9999 ini3 deletedIni3 rfl).1⟩

/-- Claim C8: `delete_web_interface` never reads its `port` argument — any
two ports yield identical resulting configurations — and on success it
always removes the entry at index `counter - 1` and decrements the
counter, whatever port that entry stores. -/
theorem delete_web_interface_port_independent :
    (∀ (p1 p2 : Int) (c : ReaperIni),
        delete_web_interface p1 c = delete_web_interface p2 c) ∧
    (∀ (p : Int) (c d : ReaperIni), delete_web_interface p c = some d →
        d.csurf_cnt = c.csurf_cnt - 1 ∧ d.csurf (c.csurf_cnt - 1) = none) := by
  constructor
  · intro p1 p2 c
    rfl
  · intro p c d hd
    cases he : c.csurf (c.csurf_cnt - 1) with
    | none => simp [delete_web_interface, he] at hd
    | some e =>
        have hd2 : d = ⟨c.csurf_cnt - 1,
            fun k => if k = c.csurf_cnt - 1 then none else c.csurf k⟩ := by
          simp [delete_web_interface, he] at hd
          exact hd.symm
        rw [hd2]
        exact ⟨rfl, by dsimp only; rw [if_pos rfl]⟩

/-- Witness for C8: deleting from the counter-3 section with an arbitrary
port (9999, different from the stored port 8080) removes the entry at
index 2 and decrements the counter. -/
theorem delete_web_interface_port_independent_witness :
    delete_web_interface 9999 ini3 = some deletedIni3 ∧
    deletedIni3.csurf_cnt = ini3.csurf_cnt - 1 ∧
    deletedIni3.csurf (ini3.csurf_cnt - 1) = none :=
  ⟨rfl, (delete_web_interface_port_independent.2 9999 ini3 deletedIni3 rfl).1,
    (delete_web_interface_port_independent.2 9999 ini3 deletedIni3 rfl).2⟩

/-- Counterexample to claim C3: from the already-enabled state (counter 4),
a second `enable_dist_api` moves the counter to 5 instead of leaving it at
4, and `disable_dist_api` on the already-disabled empty state raises
`KeyError` instead of being a no-op. -/
theorem enable_disable_not_idempotent :
    (enable_dist_api true enabledState).2.ini.csurf_cnt = 5 ∧
    enabledState.ini.csurf_cnt = 4 ∧
    (disable_dist_api true emptyState).1 = some ConfigError.keyError :=
  ⟨rfl, rfl, rfl⟩

/-- Claim C3 as amended: enabling is never idempotent — each
`enable_dist_api` increments the counter, so enable-twice ends two above
the start, not one — and disabling with the entry absent raises `KeyError`
(leaving the persisted state unchanged) rather than being the identity. -/
theorem enable_appends_disable_absent_raises :
    (∀ s : ReaperState,
        (enable_dist_api true s).2.ini.csurf_cnt = s.ini.csurf_cnt + 1 ∧
        (enable_dist_api true (enable_dist_api true s).2).2.ini.csurf_cnt
          = s.ini.csurf_cnt + 2) ∧
    (∀ s : ReaperState, s.ini.csurf (s.ini.csurf_cnt - 1) = none →
        disable_dist_api true s = (some ConfigError.keyError, s)) := by
  have hstep : ∀ s : ReaperState,
      (enable_dist_api true s).2.ini.csurf_cnt = s.ini.csurf_cnt + 1 :=
    fun s => rfl
  constructor
  · intro s
    refine ⟨hstep s, ?_⟩
    rw [hstep ((enable_dist_api true s).2), hstep s]
    omega
  · intro s h
    simp [disable_dist_api, delete_web_interface, h]

/-- Witness for C3: the empty state has no entry at index `counter - 1`,
and disabling there raises `KeyError` with the state unchanged. -/
theorem enable_appends_disable_absent_raises_witness :
    emptyState.ini.csurf (emptyState.ini.csurf_cnt - 1) = none ∧
    disable_dist_api true emptyState = (some ConfigError.keyError, emptyState) :=
  ⟨rfl, enable_appends_disable_absent_raises.2 emptyState rfl⟩

/-- Claim C5: `enable_dist_api` and `disable_dist_api` raise
`OutsideREAPERError` exactly when invoked outside REAPER, and when they do
they raise immediately, leaving the persisted configuration and the
installed-script state untouched. -/
theorem dist_api_outside_guard :
    ∀ (inside : Bool) (s : ReaperState),
      ((enable_dist_api inside s).1 = some ConfigError.outsideREAPER
        ↔ inside = false) ∧
      ((disable_dist_api inside s).1 = some ConfigError.outsideREAPER
        ↔ inside = false) ∧
      (inside = false →
        (enable_dist_api inside s).2 = s ∧ (disable_dist_api inside s).2 = s) := by
  intro inside s
  cases inside with
  | false =>
      exact ⟨by simp [enable_dist_api], by simp [disable_dist_api],
        fun _ => ⟨rfl, rfl⟩⟩
  | true =>
      refine ⟨by simp [enable_dist_api], ?_, by intro h; cases h⟩
      cases he : delete_web_interface WEB_INTERFACE_PORT s.ini with
      | none => simp [disable_dist_api, he]
      | some d => simp [disable_dist_api, he]

/-- Witness for C5: outside REAPER both calls leave the empty state
untouched. -/
theorem dist_api_outside_guard_witness :
    (false = false) ∧
    (enable_dist_api false emptyState).2 = emptyState ∧
    (disable_dist_api false emptyState).2 = emptyState :=
  ⟨rfl, ((dist_api_outside_guard false emptyState).2.2 rfl).1,
    ((dist_api_outside_guard false emptyState).2.2 rfl).2⟩

/-- Claim C1 (failing branch evaluated): for every execution unit and
argument binding, `Program.run` in an Inside-role process does not reach
the local executor — the stale bare name `DistProgram` in
`super(DistProgram, self).run(**input)` is unbound in the module, so the
call raises `NameError` — while in an Outside-role process it delegates
the unit and bindings to the network client's `run_program` as claimed. -/
theorem run_inside_raises_nameError {V : Type} (u : ExecUnit V) (a : CallArgs V) :
    Program.run true u a = RunOutcome.nameError "DistProgram" ∧
    Program.run false u a = RunOutcome.result (clientRunProgram u a) := by
  constructor
  · have h : "DistProgram" ∉ distProgramGlobals true := by decide
    simp [Program.run, h]
  · rfl

/-- Claim C7 (failing branch evaluated): the wrapper returned by
`Program.from_function(function_name)` invoked with `(args, kwargs)` runs,
in an Outside-role process, a unit whose body calls the named callable on
exactly those arguments, binds the result to the single output `result`
and hands that value back; in an Inside-role process the same wrapper
raises `NameError` from `Program.run` instead of returning the output. -/
theorem from_function_single_output {V : Type} (fenv : String → CallArgs V → V)
    (function_name : String) (a : CallArgs V) :
    from_function false fenv function_name a
      = CallOutcome.ok (fenv function_name a) ∧
    (fromFunctionUnit fenv function_name).outputs = ["result"] ∧
    from_function true fenv function_name a
      = CallOutcome.nameError "DistProgram" := by
  refine ⟨?_, rfl, ?_⟩
  · rfl
  · have h : "DistProgram" ∉ distProgramGlobals true := by decide
    simp [from_function, Program.run, h]

/-- Counterexample to claim C6: right after the module body of
`reapy.tools.dist_program` runs in an Outside-role process — before any
call has submitted an execution unit — the network client connection
already exists. -/
theorem client_exists_before_first_call :
    (distProgramInit false REAPY_SERVER_PORT).unitsSubmitted = 0 ∧
    (distProgramInit false REAPY_SERVER_PORT).clientPort ≠ none :=
  ⟨rfl, fun h => Option.noConfusion h⟩

/-- Claim C6 as amended: in an Outside-role process the web-interface query
and the network client are created eagerly when `reapy.tools.dist_program`
is imported, before the first call that submits an execution unit; in an
Inside-role process neither is created. -/
theorem client_created_at_import :
    (∀ p : Int,
        (distProgramInit false p).webInterfacePort = some WEB_INTERFACE_PORT ∧
        (distProgramInit false p).clientPort = some p ∧
        (distProgramInit false p).unitsSubmitted = 0) ∧
    (∀ p : Int,
        (distProgramInit true p).webInterfacePort = none ∧
        (distProgramInit true p).clientPort = none) :=
  ⟨fun _ => ⟨rfl, rfl, rfl⟩, fun _ => ⟨rfl, rfl⟩⟩

/-- Claim C9: for every start, end and name, `Project.add_region` reads
the unbound name `color` in its first statement and raises `NameError`,
so no region-creating host call is ever issued. -/
theorem add_region_always_nameError :
    ∀ (rgbToNative : List Int → Int) (self start stop name : PyValue),
      Project.add_region rgbToNative self start stop name
        = PyResult.nameError "color" ∧
      ∀ call : AddProjectMarkerCall,
        Project.add_region rgbToNative self start stop name
          ≠ PyResult.ok call := by
  intro f self start stop name
  constructor
  · rfl
  · intro call h
    exact PyResult.noConfusion ((rfl :
      Project.add_region f self start stop name
        = PyResult.nameError "color").symm.trans h)

/-- Claim C10: `Project.play_state` maps the native play-state values 1, 2
and 4 to `play`, `pause` and `record`, and raises `KeyError` on every
other native value, in particular on 0, the stopped state. -/
theorem play_state_mapping :
    Project.play_state 1 = PyResult.ok "play" ∧
    Project.play_state 2 = PyResult.ok "pause" ∧
    Project.play_state 4 = PyResult.ok "record" ∧
    Project.play_state 0 = PyResult.keyError ∧
    ∀ v : Int, v ≠ 1 → v ≠ 2 → v ≠ 4 →
      Project.play_state v = PyResult.keyError := by
  refine ⟨rfl, rfl, rfl, rfl, ?_⟩
  intro v h1 h2 h4
  have e1 : (v == (1 : Int)) = false := beq_eq_false_iff_ne.mpr h1
  have e2 : (v == (2 : Int)) = false := beq_eq_false_iff_ne.mpr h2
  have e4 : (v == (4 : Int)) = false := beq_eq_false_iff_ne.mpr h4
  simp [Project.play_state, playStates, List.lookup, e1, e2, e4]

/-- Witness for C10: the stopped state 0 (and value 7) hit the `KeyError`
branch. -/
theorem play_state_mapping_witness :
    (7 : Int) ≠ 1 ∧ Project.play_state 7 = PyResult.keyError :=
  ⟨by decide, play_state_mapping.2.2.2.2 7 (by decide) (by decide) (by decide)⟩

end Reapy
